import Mathlib

/-
Shallow embedding of the category-retrieval orchestration core of the
orda-service repository (smart_chatbot.py, demo_personalized_chatbot.py,
Orda_Flutter/simple_jeju_chatbot/single_chain_baseline.py), together with
proofs settling the frozen claims about it.

Python strings are modelled as Lean String, Python None/str fields as
Option String, Python dict items returned by the retrieval service as the
Item structure, and the retrieval transport as an explicit oracle argument.
-/

namespace Orda

/-- Python truthiness of an optional string field: None and "" are falsy. -/
def optTruthy : Option String → Bool
  | none => false
  | some s => !(s = "")

/-- Python str.lower(), character by character (identity on Korean text and digits). -/
def pyLower (s : String) : String := ⟨s.data.map Char.toLower⟩

/-- Check whether a character list starts with a given pattern. -/
def charsStartWith : List Char → List Char → Bool
  | _, [] => true
  | [], _ :: _ => false
  | c :: cs, p :: ps => c = p && charsStartWith cs ps

/-- Python substring containment `pat in s`, on character lists. -/
def charsContain : List Char → List Char → Bool
  | [], pat => pat.isEmpty
  | c :: rest, pat => charsStartWith (c :: rest) pat || charsContain rest pat

/-- Python substring containment `pat in s` on strings. -/
def strContains (s pat : String) : Bool := charsContain s.data pat.data

/-- Python `any(word in s for word in words)`. -/
def containsAny (s : String) (words : List String) : Bool :=
  words.any (fun w => strContains s w)

/-- Start codepoints of the contiguous 10-codepoint runs making up the
Unicode decimal digits (general category Nd, Unicode 15.1): ASCII,
Arabic-Indic, extended Arabic-Indic, NKo, the Indic scripts, Thai, Lao,
Tibetan, Myanmar (+Shan, Tai Laing), Khmer, Mongolian, Limbu, New Tai Lue,
Tai Tham (Hora, Tham), Balinese, Sundanese, Lepcha, Ol Chiki, Vai,
Saurashtra, Kayah Li, Javanese, Cham, Meetei Mayek, fullwidth, Osmanya,
Hanifi Rohingya, Brahmi, Sora Sompeng, Chakma, Sharada, Khudawadi, Newa,
Tirhuta, Modi, Takri, Ahom, Warang Citi, Dives Akuru, Bhaiksuki, Masaram
Gondi, Gunjala Gondi, Kawi, Mro, Tangsa, Pahawh Hmong, the five mathematical
digit styles, Nyiakeng Puachue Hmong, Wancho, Nag Mundari, Adlam, and the
segmented digits. Each run holds the digit values 0 through 9 in order. -/
def ndRangeStarts : List Nat :=
  [0x30, 0x660, 0x6F0, 0x7C0, 0x966, 0x9E6, 0xA66, 0xAE6, 0xB66, 0xBE6,
   0xC66, 0xCE6, 0xD66, 0xDE6, 0xE50, 0xED0, 0xF20, 0x1040, 0x1090, 0x17E0,
   0x1810, 0x1946, 0x19D0, 0x1A80, 0x1A90, 0x1B50, 0x1BB0, 0x1C40, 0x1C50,
   0xA620, 0xA8D0, 0xA900, 0xA9D0, 0xA9F0, 0xAA50, 0xABF0, 0xFF10, 0x104A0,
   0x10D30, 0x11066, 0x110F0, 0x11136, 0x111D0, 0x112F0, 0x11450, 0x114D0,
   0x11650, 0x116C0, 0x11730, 0x118E0, 0x11950, 0x11C50, 0x11D50, 0x11DA0,
   0x11F50, 0x16A60, 0x16AC0, 0x16B50, 0x1D7CE, 0x1D7D8, 0x1D7E2, 0x1D7EC,
   0x1D7F6, 0x1E140, 0x1E2F0, 0x1E4F0, 0x1E950, 0x1FBF0]

/-- The Nd run a character belongs to, if any. -/
def pyDigitRange (c : Char) : Option Nat :=
  ndRangeStarts.find? (fun s => decide (s ≤ c.toNat) && decide (c.toNat < s + 10))

/-- Python's regex digit class on str patterns: any Unicode decimal digit
(category Nd), e.g. the fullwidth digits, not only ASCII 0-9. -/
def pyIsDigit (c : Char) : Bool := (pyDigitRange c).isSome

/-- Decimal value of a Unicode decimal digit (offset inside its Nd run),
the value Python int() assigns to it; 0 for non-digits, which never occur
inside an extracted run. -/
def pyDigitVal (c : Char) : Nat :=
  match pyDigitRange c with
  | some s => c.toNat - s
  | none => 0

/-- Maximal digit runs of a character list, accumulator style
(the accumulator holds the current run reversed). Models re.findall of a
digit-run pattern, whose digit class is the Unicode decimal digits. -/
def digitRunsAux : List Char → List Char → List (List Char)
  | [], cur => if cur.isEmpty then [] else [cur.reverse]
  | c :: rest, cur =>
    if pyIsDigit c then digitRunsAux rest (c :: cur)
    else if cur.isEmpty then digitRunsAux rest []
    else cur.reverse :: digitRunsAux rest []

/-- All maximal digit runs occurring in a string. -/
def digitRuns (s : String) : List (List Char) := digitRunsAux s.data []

/-- Decimal value of a digit run, models Python int(), which accepts any
Unicode decimal digits. -/
def runToNat (run : List Char) : Nat := run.foldl (fun n c => 10 * n + pyDigitVal c) 0

/-- All numbers named by digit runs in the string: models re.findall plus int mapping
in calculate_search_counts. -/
def extractNumbers (s : String) : List Nat := (digitRuns s).map runToNat

/-- Per-category search counts, the value produced by calculate_search_counts. -/
structure SearchCounts where
  hotel : Nat
  tour : Nat
  food : Nat
  event : Nat
deriving DecidableEq, Repr

/-- Keyword classification of the lowercased duration text into a day count,
the else-branch of calculate_search_counts (smart_chatbot.py lines 701-715). -/
def keywordDays (dl : String) : Nat :=
  if containsAny dl ["당일", "하루"] then 1
  else if containsAny dl ["1박", "2일"] then 2
  else if containsAny dl ["2박", "3일"] then 3
  else if containsAny dl ["3박", "4일"] then 4
  else if containsAny dl ["4박", "5일"] then 5
  else 3

/-- Day count inferred from the lowercased duration text: the maximum extracted
number when digit runs exist, else the keyword classification. -/
def inferDays (dl : String) : Nat :=
  let numbers := extractNumbers dl
  if numbers.isEmpty then keywordDays dl
  else numbers.foldl Nat.max 0

/-- The six fixed duration buckets of calculate_search_counts
(smart_chatbot.py lines 717-728). -/
def countsForDays (days : Nat) : SearchCounts :=
  if days ≤ 1 then ⟨3, 4, 3, 3⟩
  else if days ≤ 2 then ⟨3, 6, 5, 3⟩
  else if days ≤ 3 then ⟨4, 8, 7, 3⟩
  else if days ≤ 4 then ⟨4, 12, 10, 3⟩
  else if days ≤ 5 then ⟨5, 15, 13, 3⟩
  else ⟨5, 18, 16, 3⟩

/-- calculate_search_counts (smart_chatbot.py lines 687-731, identical in
single_chain_baseline.py): empty duration returns a fixed default dict,
otherwise the text is lowercased, a day count inferred artifact-for-artifact,
and bucketed. -/
def calculate_search_counts (duration : String) : SearchCounts :=
  if duration = "" then ⟨3, 8, 6, 3⟩
  else countsForDays (inferDays (pyLower duration))

/-- TripProfile of the multi-agent variant (UserProfile dataclass,
smart_chatbot.py lines 31-42). -/
structure UserProfile where
  travel_dates : Option String := none
  duration : Option String := none
  group_type : Option String := none
  interests : List String := []
  budget : Option String := none
  travel_region : Option String := none
deriving DecidableEq, Repr

/-- Number of truthy fields among the six checked by is_profile_sufficient. -/
def requiredInfoCount (p : UserProfile) : Nat :=
  [optTruthy p.travel_dates, optTruthy p.duration, optTruthy p.group_type,
   !p.interests.isEmpty, optTruthy p.budget, optTruthy p.travel_region].count true

/-- is_profile_sufficient (smart_chatbot.py lines 565-581): at least 3 of the 6
profile fields are truthy. -/
def is_profile_sufficient (p : UserProfile) : Bool :=
  decide (3 ≤ requiredInfoCount p)

/-- should_continue_to_agents (smart_chatbot.py lines 1020-1025): route on the
profile_ready flag produced by is_profile_sufficient. -/
def should_continue_to_agents (profile_ready : Bool) : String :=
  if profile_ready then "parallel_search" else "end"

/-- Extraction result handed to update_profile: a JSON object with nullable
scalar fields and an optional interest array. -/
structure ProfileInfo where
  travel_dates : Option String := none
  duration : Option String := none
  group_type : Option String := none
  interests : Option (List String) := none
  budget : Option String := none
  travel_region : Option String := none
deriving DecidableEq, Repr

/-- Python truthiness of an optional list (None and [] are falsy). -/
def listTruthy : Option (List String) → Bool
  | none => false
  | some l => !l.isEmpty

/-- One step of the interest-merging loop in update_profile: append the tag
unless it is already present. -/
def addInterest (acc : List String) (t : String) : List String :=
  if t ∈ acc then acc else acc ++ [t]

/-- The interest-merging loop of update_profile: fold every extracted tag into
the accumulated tag list, skipping tags already present. -/
def mergeInterests (acc : List String) (ts : List String) : List String :=
  ts.foldl addInterest acc

/-- Extracted interest tags as a plain list ([] when the field is absent). -/
def infoTags (info : ProfileInfo) : List String := info.interests.getD []

/-- update_profile (smart_chatbot.py lines 545-563, identical shape in
demo_personalized_chatbot.py lines 277-295): each scalar field is overwritten
when the extracted value is truthy; extracted interests are folded into the
tag list. The six Python statements touch disjoint fields, so they are
rendered as one simultaneous record update. -/
def update_profile (p : UserProfile) (info : ProfileInfo) : UserProfile :=
  { travel_dates := if optTruthy info.travel_dates then info.travel_dates else p.travel_dates
    duration := if optTruthy info.duration then info.duration else p.duration
    group_type := if optTruthy info.group_type then info.group_type else p.group_type
    interests := if listTruthy info.interests then mergeInterests p.interests (infoTags info)
                 else p.interests
    budget := if optTruthy info.budget then info.budget else p.budget
    travel_region := if optTruthy info.travel_region then info.travel_region else p.travel_region }

/-- One retrieved item of the retrieval collaborator's response ("sources"
entry): a dict with an optional name and remaining free-text content. -/
structure Item where
  name : Option String := none
  content : String := ""
deriving DecidableEq, Repr

/-- Outcome of one HTTP request to the retrieval collaborator: a response with
status and item list, a read timeout, a connect timeout, or any other raised
error. -/
inductive HttpOutcome where
  | resp (status : Nat) (sources : List Item)
  | readTimeoutErr
  | connectTimeoutErr
  | otherError
deriving DecidableEq, Repr

/-- An outcome counts as success exactly when it is a status-200 response. -/
def outcomeOk : HttpOutcome → Bool
  | .resp status _ => status = 200
  | _ => false

/-- Record of one attempt of search_vector_db: the 0-indexed attempt number,
the four httpx timeout values used (in seconds), whether the attempt
succeeded, and the backoff sleep performed after it (in seconds), if any. -/
structure AttemptLog where
  idx : Nat
  connectT : Nat
  readT : Nat
  writeT : Nat
  poolT : Nat
  ok : Bool
  sleptAfter : Option Nat
deriving DecidableEq, Repr

/-- max_retries constant of search_vector_db. -/
def max_retries : Nat := 3

/-- base_timeout constant of search_vector_db (seconds). -/
def base_timeout : Nat := 90

/-- Item list carried by a response outcome ([] for transport errors, which
never reach the response-handling branch). -/
def respSources : HttpOutcome → List Item
  | .resp _ srcs => srcs
  | _ => []

/-- The attempt record built by one iteration of search_vector_db's loop:
connect/write/pool timeouts are the fixed 10.0 seconds of the httpx.Timeout
configuration and the read timeout escalates as base_timeout * (attempt+1). -/
def attemptRecord (attempt : Nat) (ok : Bool) (slept : Option Nat) : AttemptLog :=
  ⟨attempt, 10, base_timeout * (attempt + 1), 10, 10, ok, slept⟩

/-- The retry loop of search_vector_db (smart_chatbot.py lines 612-684, same
behaviour in demo_personalized_chatbot.py lines 337-396), parametrised by the
transport oracle giving each attempt's outcome. fuel is the number of
attempts still allowed; attempt is the current 0-indexed attempt number.
On a 200 response the sources are truncated to top_k and returned; on any
failure (non-200 status, read timeout, connect timeout, other error) the loop
sleeps 2 ^ attempt seconds and retries while attempts remain, and returns []
after the final attempt. -/
def searchFrom (oracle : Nat → HttpOutcome) (top_k : Nat) :
    Nat → Nat → List Item × List AttemptLog
  | _, 0 => ([], [])
  | attempt, fuel + 1 =>
    if outcomeOk (oracle attempt) then
      ((respSources (oracle attempt)).take top_k, [attemptRecord attempt true none])
    else if fuel = 0 then
      ([], [attemptRecord attempt false none])
    else
      let rest := searchFrom oracle top_k (attempt + 1) fuel
      (rest.1, attemptRecord attempt false (some (2 ^ attempt)) :: rest.2)

/-- search_vector_db of the retrying variants: run the retry loop from attempt
0 with max_retries attempts of budget, returning the item list and the log of
attempts made. -/
def search_vector_db (oracle : Nat → HttpOutcome) (top_k : Nat) :
    List Item × List AttemptLog :=
  searchFrom oracle top_k 0 max_retries

/-- Item name lookup, models result.get applied to the name key with default
empty string in search_with_batching's dedup step. -/
def getName (it : Item) : String := it.name.getD ""

/-- Dedup step of search_with_batching: keep only batch items whose name is
not among the names accumulated so far. -/
def dedupNew (acc batch : List Item) : List Item :=
  batch.filter (fun r => !((acc.map getName).contains (getName r)))

/-- Query perturbation per batch in search_with_batching: batch 0 uses the
original query, batch 1 a list-style variant, later batches a best-N variant. -/
def batchQuery (query : String) (batch_num : Nat) : String :=
  if batch_num = 0 then query
  else if batch_num = 1 then query.replace "추천" "명소 리스트"
  else query.replace "추천" ("베스트 " ++ toString (batch_num + 1))

/-- The batch loop of search_with_batching (smart_chatbot.py lines 753-785):
fetch is the underlying search_vector_db call (query and top_k to item list);
rem is the number of batches still to run; acc accumulates deduplicated
results. Stops early when acc reaches total_count, or reaches half of
total_count after the third batch. -/
def batchLoop (fetch : String → Nat → List Item) (query : String)
    (total_count batch_size : Nat) : Nat → Nat → List Item → List Item
  | _, 0, acc => acc
  | batch_num, rem + 1, acc =>
    let current_batch_size := min batch_size (total_count - acc.length)
    let batch_results := fetch (batchQuery query batch_num) current_batch_size
    let acc2 := acc ++ dedupNew acc batch_results
    if total_count ≤ acc2.length then acc2
    else if total_count / 2 ≤ acc2.length ∧ 2 ≤ batch_num then acc2
    else batchLoop fetch query total_count batch_size (batch_num + 1) rem acc2

/-- search_with_batching (smart_chatbot.py lines 734-790): totals of at most
20 delegate to a single underlying search; larger totals run
ceil(total/batch_size) batches through the dedup loop and truncate to
total_count. -/
def search_with_batching (fetch : String → Nat → List Item) (query : String)
    (total_count : Nat) (batch_size : Nat) : List Item :=
  if total_count ≤ 20 then fetch query total_count
  else
    (batchLoop fetch query total_count batch_size 0
      ((total_count + batch_size - 1) / batch_size) []).take total_count

/-- The four per-category result lists assembled by
personalized_parallel_search_all. -/
structure SearchResults where
  hotel_results : List Item
  travel_results : List Item
  food_results : List Item
  event_results : List Item
deriving DecidableEq, Repr

/-- Outcome of one category task under asyncio.gather with
return_exceptions=True: either the task's item list or a raised exception. -/
inductive TaskOutcome where
  | ok (results : List Item)
  | exn (msg : String)
deriving DecidableEq, Repr

/-- The per-category isinstance check after gather in
personalized_parallel_search_all: an exception becomes an empty list, a
normal result is passed through. -/
def resolveOutcome : TaskOutcome → List Item
  | .ok rs => rs
  | .exn _ => []

/-- Fan-in of personalized_parallel_search_all (demo_personalized_chatbot.py
lines 1211-1242): the state written after gather returns the four category
outcomes, each resolved independently. -/
def personalized_gather_results (hotel tour food event : TaskOutcome) :
    SearchResults :=
  ⟨resolveOutcome hotel, resolveOutcome tour, resolveOutcome food,
    resolveOutcome event⟩

/-- SingleChainJejuChatbot.search_vector_db (single_chain_baseline.py lines
397-451): one request through the global client (fixed timeouts connect=10,
read=120, write=10, pool=10 from get_global_client), no retry and no backoff;
a 200 response is truncated to top_k, any non-200 status or raised error
yields an empty list. -/
def singleChain_search_vector_db (outcome : HttpOutcome) (top_k : Nat) :
    List Item × List AttemptLog :=
  match outcome with
  | .resp status srcs =>
    if status = 200 then (srcs.take top_k, [⟨0, 10, 120, 10, 10, true, none⟩])
    else ([], [⟨0, 10, 120, 10, 10, false, none⟩])
  | _ => ([], [⟨0, 10, 120, 10, 10, false, none⟩])

/-! Theorems settling the claims. -/

lemma countsForDays_min (d : Nat) : countsForDays d = countsForDays (min d 6) := by
  rcases Nat.le_total d 6 with h | h
  · rw [Nat.min_eq_left h]
  · have h1 : ¬ d ≤ 1 := by omega
    have h2 : ¬ d ≤ 2 := by omega
    have h3 : ¬ d ≤ 3 := by omega
    have h4 : ¬ d ≤ 4 := by omega
    have h5 : ¬ d ≤ 5 := by omega
    rw [Nat.min_eq_right h]
    simp [countsForDays, h1, h2, h3, h4, h5]

/-- C5: the DemandPlanner bucket table of calculate_search_counts is
monotonically non-decreasing in every category (hotel, tour, food, event) as
the inferred day count increases, across all six duration buckets. -/
theorem C5_demand_planner_monotone (d1 d2 : Nat) (h : d1 ≤ d2) :
    (countsForDays d1).hotel ≤ (countsForDays d2).hotel ∧
    (countsForDays d1).tour ≤ (countsForDays d2).tour ∧
    (countsForDays d1).food ≤ (countsForDays d2).food ∧
    (countsForDays d1).event ≤ (countsForDays d2).event := by
  have key : ∀ a, a ≤ 6 → ∀ b, b ≤ 6 → a ≤ b →
      (countsForDays a).hotel ≤ (countsForDays b).hotel ∧
      (countsForDays a).tour ≤ (countsForDays b).tour ∧
      (countsForDays a).food ≤ (countsForDays b).food ∧
      (countsForDays a).event ≤ (countsForDays b).event := by decide
  rw [countsForDays_min d1, countsForDays_min d2]
  exact key _ (Nat.min_le_right _ _) _ (Nat.min_le_right _ _) (by omega)

/-- Witness for C5: a concrete instantiation at day counts 2 and 4. -/
theorem C5_demand_planner_monotone_witness :
    (countsForDays 2).hotel ≤ (countsForDays 4).hotel ∧
    (countsForDays 2).tour ≤ (countsForDays 4).tour ∧
    (countsForDays 2).food ≤ (countsForDays 4).food ∧
    (countsForDays 2).event ≤ (countsForDays 4).event :=
  C5_demand_planner_monotone 2 4 (by decide)

/-- Counterexample to C3 as stated: the empty duration text is empty and
unparseable, yet calculate_search_counts returns the fixed default
{hotel 3, tour 8, food 6, event 3}, not the days-3 bucket
{hotel 4, tour 8, food 7, event 3}. -/
theorem C3_counterexample :
    calculate_search_counts "" = ⟨3, 8, 6, 3⟩ ∧
    calculate_search_counts "" ≠ ⟨4, 8, 7, 3⟩ := by decide

/-- C3 as amended: the empty duration text returns the fixed default
{hotel 3, tour 8, food 6, event 3}, while every non-empty duration text with
no digit run and no recognized keyword returns the days-3 bucket
{hotel 4, tour 8, food 7, event 3}. -/
theorem C3_default_counts :
    calculate_search_counts "" = ⟨3, 8, 6, 3⟩ ∧
    ∀ s : String, s ≠ "" → extractNumbers (pyLower s) = [] →
      (∀ w ∈ ["당일", "하루", "1박", "2일", "2박", "3일", "3박", "4일", "4박", "5일"],
        strContains (pyLower s) w = false) →
      calculate_search_counts s = ⟨4, 8, 7, 3⟩ := by
  refine ⟨by decide, fun s hne hnum hkw => ?_⟩
  have h1 := hkw "당일" (by simp)
  have h2 := hkw "하루" (by simp)
  have h3 := hkw "1박" (by simp)
  have h4 := hkw "2일" (by simp)
  have h5 := hkw "2박" (by simp)
  have h6 := hkw "3일" (by simp)
  have h7 := hkw "3박" (by simp)
  have h8 := hkw "4일" (by simp)
  have h9 := hkw "4박" (by simp)
  have h10 := hkw "5일" (by simp)
  simp [calculate_search_counts, hne, inferDays, hnum, keywordDays, containsAny,
    h1, h2, h3, h4, h5, h6, h7, h8, h9, h10, countsForDays]

/-- Witness for C3 as amended: a concrete non-empty unparseable duration. -/
theorem C3_default_counts_witness :
    calculate_search_counts "테스트" = ⟨4, 8, 7, 3⟩ :=
  C3_default_counts.2 "테스트" (by decide) (by decide) (by decide)

/-- C4: is_profile_sufficient in count-threshold mode is true exactly when at
least 3 of the 6 profile fields (travel_dates, duration, group_type,
interests, budget, travel_region) are truthy, where a scalar field is truthy
exactly when it is non-null and non-empty; a profile with only the duration
set is not sufficient, so should_continue_to_agents routes that turn back to
collecting ("end"). -/
theorem C4_profile_sufficiency :
    (∀ p : UserProfile, is_profile_sufficient p = true ↔ 3 ≤ requiredInfoCount p) ∧
    (∀ o : Option String, optTruthy o = true ↔ (o ≠ none ∧ o ≠ some "")) ∧
    is_profile_sufficient { duration := some "2박3일" } = false ∧
    should_continue_to_agents (is_profile_sufficient { duration := some "2박3일" }) = "end" := by
  refine ⟨fun p => by simp [is_profile_sufficient], fun o => ?_, by decide, by decide⟩
  rcases o with _ | s
  · simp [optTruthy]
  · simp [optTruthy]

/-- Witness for C4: a concrete profile with three truthy fields is sufficient. -/
theorem C4_profile_sufficiency_witness :
    is_profile_sufficient
      { duration := some "2박3일", group_type := some "커플", interests := ["맛집"] } = true :=
  (C4_profile_sufficiency.1 _).mpr (by decide)

lemma mergeInterests_cons (acc : List String) (t : String) (ts : List String) :
    mergeInterests acc (t :: ts) = mergeInterests (addInterest acc t) ts := rfl

lemma mem_addInterest (acc : List String) (t x : String) :
    x ∈ addInterest acc t ↔ x ∈ acc ∨ x = t := by
  by_cases h : t ∈ acc
  · simp only [addInterest, if_pos h]
    constructor
    · exact Or.inl
    · rintro (hx | rfl)
      · exact hx
      · exact h
  · simp [addInterest, if_neg h]

lemma addInterest_nodup (acc : List String) (t : String) (h : acc.Nodup) :
    (addInterest acc t).Nodup := by
  by_cases ht : t ∈ acc
  · simpa only [addInterest, if_pos ht] using h
  · simp [addInterest, if_neg ht, List.nodup_append, h, ht]

lemma exists_mergeInterests_append (acc ts : List String) :
    ∃ rest, mergeInterests acc ts = acc ++ rest := by
  induction ts generalizing acc with
  | nil => exact ⟨[], by simp [mergeInterests]⟩
  | cons t ts ih =>
    rcases ih (addInterest acc t) with ⟨r, hr⟩
    by_cases h : t ∈ acc
    · exact ⟨r, by rw [mergeInterests_cons, hr]; simp [addInterest, h]⟩
    · exact ⟨t :: r, by rw [mergeInterests_cons, hr]; simp [addInterest, h]⟩

lemma mergeInterests_sublist (acc ts : List String) :
    List.Sublist (mergeInterests acc ts) (acc ++ ts) := by
  induction ts generalizing acc with
  | nil => simp [mergeInterests]
  | cons t ts ih =>
    rw [mergeInterests_cons]
    refine (ih (addInterest acc t)).trans ?_
    by_cases h : t ∈ acc
    · simp only [addInterest, if_pos h]
      exact List.Sublist.append_left (List.sublist_cons_self _ _) acc
    · simp [addInterest, if_neg h]

lemma mem_mergeInterests (acc ts : List String) (x : String) :
    x ∈ mergeInterests acc ts ↔ x ∈ acc ∨ x ∈ ts := by
  induction ts generalizing acc with
  | nil => simp [mergeInterests]
  | cons t ts ih =>
    rw [mergeInterests_cons, ih, mem_addInterest]
    simp [or_assoc]

lemma mergeInterests_nodup (acc ts : List String) (h : acc.Nodup) :
    (mergeInterests acc ts).Nodup := by
  induction ts generalizing acc with
  | nil => exact h
  | cons t ts ih => exact ih _ (addInterest_nodup _ _ h)

lemma mergeInterests_eq_of_subset (acc ts : List String)
    (h : ∀ t ∈ ts, t ∈ acc) : mergeInterests acc ts = acc := by
  induction ts generalizing acc with
  | nil => rfl
  | cons t ts ih =>
    have ht : t ∈ acc := h t (List.mem_cons_self t ts)
    rw [mergeInterests_cons]
    simp only [addInterest, if_pos ht]
    exact ih acc (fun x hx => h x (List.mem_cons_of_mem _ hx))

/-- Counterexample to C6 as stated: an extracted travel_dates value that is
non-null but empty does not overwrite the current field, because
update_profile tests Python truthiness rather than non-nullness. -/
theorem C6_counterexample :
    ({ travel_dates := some "" } : ProfileInfo).travel_dates ≠ none ∧
    (update_profile { travel_dates := some "5월" }
      { travel_dates := some "" }).travel_dates = some "5월" ∧
    (update_profile { travel_dates := some "5월" }
      { travel_dates := some "" }).travel_dates ≠ some "" := by decide

/-- C6 as amended: each scalar field of the extraction result overwrites the
corresponding profile field exactly when the extracted value is truthy
(non-null and non-empty); the extracted interest tags are unioned into the
profile's tag list — the old tags stay at the front in order, the merged
list is an in-order selection from old tags followed by extracted tags, a
tag is in the merged list exactly when it is an old or an extracted tag, and
no tag is added twice (the merged list stays duplicate-free whenever the old
list was). -/
theorem C6_merge_rules (p : UserProfile) (info : ProfileInfo) :
    ((update_profile p info).travel_dates
      = if optTruthy info.travel_dates then info.travel_dates else p.travel_dates) ∧
    ((update_profile p info).duration
      = if optTruthy info.duration then info.duration else p.duration) ∧
    ((update_profile p info).group_type
      = if optTruthy info.group_type then info.group_type else p.group_type) ∧
    ((update_profile p info).budget
      = if optTruthy info.budget then info.budget else p.budget) ∧
    ((update_profile p info).travel_region
      = if optTruthy info.travel_region then info.travel_region else p.travel_region) ∧
    (∃ rest, (update_profile p info).interests = p.interests ++ rest) ∧
    (List.Sublist (update_profile p info).interests (p.interests ++ infoTags info)) ∧
    (∀ t, t ∈ (update_profile p info).interests ↔ t ∈ p.interests ∨ t ∈ infoTags info) ∧
    (p.interests.Nodup → (update_profile p info).interests.Nodup) := by
  refine ⟨rfl, rfl, rfl, rfl, rfl, ?_, ?_, ?_, ?_⟩
  · by_cases h : listTruthy info.interests
    · simpa [update_profile, h] using exists_mergeInterests_append p.interests (infoTags info)
    · exact ⟨[], by simp [update_profile, h]⟩
  · by_cases h : listTruthy info.interests
    · simpa [update_profile, h] using mergeInterests_sublist p.interests (infoTags info)
    · simp only [update_profile, if_neg h]
      exact List.sublist_append_left _ _
  · intro t
    by_cases h : listTruthy info.interests
    · simpa [update_profile, h] using mem_mergeInterests p.interests (infoTags info) t
    · have htags : infoTags info = [] := by
        rcases hint : info.interests with _ | l
        · simp [infoTags, hint]
        · rcases l with _ | ⟨a, l⟩
          · simp [infoTags, hint]
          · exact absurd (by simp [listTruthy, hint]) h
      simp [update_profile, if_neg h, htags]
  · intro hnd
    by_cases h : listTruthy info.interests
    · simpa [update_profile, h] using mergeInterests_nodup p.interests (infoTags info) hnd
    · simpa [update_profile, h] using hnd

/-- Witness for C6 as amended: concrete merge keeping the old tag order and
adding the new tag once. -/
theorem C6_merge_rules_witness :
    (update_profile { interests := ["맛집"] }
      { interests := some ["힐링", "맛집"] }).interests.Nodup :=
  (C6_merge_rules { interests := ["맛집"] } { interests := some ["힐링", "맛집"] }).2.2.2.2.2.2.2.2
    (by decide)

/-- C7: update_profile is idempotent — merging the same extraction result
twice yields the same profile as merging it once. -/
theorem C7_merge_idempotent (p : UserProfile) (info : ProfileInfo) :
    update_profile (update_profile p info) info = update_profile p info := by
  have hmm : ∀ acc ts, mergeInterests (mergeInterests acc ts) ts = mergeInterests acc ts :=
    fun acc ts => mergeInterests_eq_of_subset _ _
      (fun t ht => (mem_mergeInterests _ _ t).mpr (Or.inr ht))
  unfold update_profile
  by_cases h1 : optTruthy info.travel_dates <;>
  by_cases h2 : optTruthy info.duration <;>
  by_cases h3 : optTruthy info.group_type <;>
  by_cases h4 : listTruthy info.interests <;>
  by_cases h5 : optTruthy info.budget <;>
  by_cases h6 : optTruthy info.travel_region <;>
  simp [h1, h2, h3, h4, h5, h6, hmm]

lemma searchFrom_succ_ok (oracle : Nat → HttpOutcome) (top_k attempt fuel : Nat)
    (hok : outcomeOk (oracle attempt) = true) :
    searchFrom oracle top_k attempt (fuel + 1)
      = ((respSources (oracle attempt)).take top_k, [attemptRecord attempt true none]) := by
  simp [searchFrom, hok]

lemma searchFrom_succ_final (oracle : Nat → HttpOutcome) (top_k attempt : Nat)
    (hok : outcomeOk (oracle attempt) = false) :
    searchFrom oracle top_k attempt 1 = ([], [attemptRecord attempt false none]) := by
  simp [searchFrom, hok]

lemma searchFrom_succ_retry (oracle : Nat → HttpOutcome) (top_k attempt fuel : Nat)
    (hok : outcomeOk (oracle attempt) = false) (hf : fuel ≠ 0) :
    searchFrom oracle top_k attempt (fuel + 1)
      = ((searchFrom oracle top_k (attempt + 1) fuel).1,
         attemptRecord attempt false (some (2 ^ attempt))
           :: (searchFrom oracle top_k (attempt + 1) fuel).2) := by
  simp [searchFrom, hok, hf]

lemma searchFrom_spec (oracle : Nat → HttpOutcome) (top_k : Nat) :
    ∀ fuel, ∀ attempt, 0 < fuel →
      (searchFrom oracle top_k attempt fuel).2 ≠ [] ∧
      (searchFrom oracle top_k attempt fuel).2.length ≤ fuel ∧
      ((searchFrom oracle top_k attempt fuel).2.map AttemptLog.idx
        = List.range' attempt (searchFrom oracle top_k attempt fuel).2.length) ∧
      (∀ log ∈ (searchFrom oracle top_k attempt fuel).2,
        log.connectT = 10 ∧ log.readT = base_timeout * (log.idx + 1) ∧
        log.writeT = 10 ∧ log.poolT = 10) ∧
      (∀ log ∈ (searchFrom oracle top_k attempt fuel).2.dropLast,
        log.ok = false ∧ log.sleptAfter = some (2 ^ log.idx)) ∧
      (∀ log, (searchFrom oracle top_k attempt fuel).2.getLast? = some log →
        log.sleptAfter = none ∧
        (log.ok = false → (searchFrom oracle top_k attempt fuel).2.length = fuel)) ∧
      ((∀ i, attempt ≤ i → i < attempt + fuel → outcomeOk (oracle i) = false) →
        (searchFrom oracle top_k attempt fuel).1 = [] ∧
        (searchFrom oracle top_k attempt fuel).2.length = fuel) := by
  intro fuel
  induction fuel with
  | zero => exact fun a h => absurd h (Nat.lt_irrefl 0)
  | succ n ih =>
    intro attempt _
    by_cases hok : outcomeOk (oracle attempt) = true
    · rw [searchFrom_succ_ok oracle top_k attempt n hok]
      refine ⟨by simp, by simp, by simp [attemptRecord, List.range'], ?_, by simp, ?_, ?_⟩
      · intro log hl
        rcases List.mem_singleton.mp hl with rfl
        simp [attemptRecord]
      · intro log hl
        simp only [List.getLast?_singleton, Option.some.injEq] at hl
        subst hl
        exact ⟨rfl, fun hfalse => by simp [attemptRecord] at hfalse⟩
      · intro hall
        have := hall attempt (Nat.le_refl _) (by omega)
        rw [hok] at this
        exact absurd this (by simp)
    · rw [Bool.not_eq_true] at hok
      by_cases hn : n = 0
      · subst hn
        rw [searchFrom_succ_final oracle top_k attempt hok]
        refine ⟨by simp, by simp, by simp [attemptRecord, List.range'], ?_, by simp, ?_, ?_⟩
        · intro log hl
          rcases List.mem_singleton.mp hl with rfl
          simp [attemptRecord]
        · intro log hl
          simp only [List.getLast?_singleton, Option.some.injEq] at hl
          subst hl
          exact ⟨rfl, fun _ => by simp⟩
        · exact fun _ => ⟨rfl, by simp⟩
      · rw [searchFrom_succ_retry oracle top_k attempt n hok hn]
        obtain ⟨ihne, ihlen, ihmap, ihtime, ihdrop, ihlast, ihall⟩ :=
          ih (attempt + 1) (Nat.pos_of_ne_zero hn)
        refine ⟨by simp, ?_, ?_, ?_, ?_, ?_, ?_⟩
        · simpa using Nat.succ_le_succ ihlen
        · simp only [List.map_cons, List.length_cons]
          rw [List.range'_succ, ihmap]
          simp [attemptRecord]
        · intro log hl
          rcases List.mem_cons.mp hl with rfl | hl
          · simp [attemptRecord]
          · exact ihtime log hl
        · rcases hr2 : (searchFrom oracle top_k (attempt + 1) n).2 with _ | ⟨y, ys⟩
          · exact absurd hr2 ihne
          · rw [hr2] at ihdrop
            intro log hl
            simp only [List.dropLast_cons₂] at hl
            rcases List.mem_cons.mp hl with rfl | hl
            · simp [attemptRecord]
            · exact ihdrop log hl
        · rcases hr2 : (searchFrom oracle top_k (attempt + 1) n).2 with _ | ⟨y, ys⟩
          · exact absurd hr2 ihne
          · rw [hr2] at ihlast
            intro log hl
            rw [List.getLast?_cons_cons] at hl
            obtain ⟨hslept, hlen⟩ := ihlast log hl
            refine ⟨hslept, fun hfalse => ?_⟩
            have hy := hlen hfalse
            show (attemptRecord attempt false (some (2 ^ attempt)) :: y :: ys).length = n + 1
            simp only [List.length_cons] at hy ⊢
            omega
        · intro hall
          obtain ⟨e1, e2⟩ := ihall (fun i h1 h2 => hall i (by omega) (by omega))
          exact ⟨e1, by simp [e2]⟩

/-- C1: search_vector_db makes at most max_retries = 3 attempts; the attempts
are numbered 0, 1, ... in order; every attempt uses a read timeout of
base_timeout * (idx + 1) with connect/write/pool fixed at 10 seconds; every
logged attempt before the last one failed and was followed by a sleep of
2 ^ idx seconds; no sleep follows the last attempt, and if the last attempt
failed then all max_retries attempts were made; when every attempt fails the
call returns the empty result (the embedding is a total function, so no
exception escapes). -/
theorem C1_retrieval_retry_policy (oracle : Nat → HttpOutcome) (top_k : Nat) :
    (search_vector_db oracle top_k).2.length ≤ max_retries ∧
    ((search_vector_db oracle top_k).2.map AttemptLog.idx
      = List.range' 0 (search_vector_db oracle top_k).2.length) ∧
    (∀ log ∈ (search_vector_db oracle top_k).2,
      log.readT = base_timeout * (log.idx + 1) ∧ log.connectT = 10 ∧
      log.writeT = 10 ∧ log.poolT = 10) ∧
    (∀ log ∈ (search_vector_db oracle top_k).2.dropLast,
      log.ok = false ∧ log.sleptAfter = some (2 ^ log.idx)) ∧
    (∀ log, (search_vector_db oracle top_k).2.getLast? = some log →
      log.sleptAfter = none ∧
      (log.ok = false → (search_vector_db oracle top_k).2.length = max_retries)) ∧
    ((∀ i, i < max_retries → outcomeOk (oracle i) = false) →
      (search_vector_db oracle top_k).1 = [] ∧
      (search_vector_db oracle top_k).2.length = max_retries) := by
  obtain ⟨-, hlen, hmap, htime, hdrop, hlast, hall⟩ :=
    searchFrom_spec oracle top_k max_retries 0 (by decide)
  exact ⟨hlen, hmap, fun log hl => by
      obtain ⟨c, r, w, pl⟩ := htime log hl
      exact ⟨r, c, w, pl⟩,
    hdrop, hlast, fun h => hall (fun i _ hi => h i (by simpa using hi))⟩

/-- Witness for C1: a transport double answering HTTP 500 forever makes the
retry budget run out, producing an empty result after exactly 3 attempts. -/
theorem C1_retrieval_retry_policy_witness :
    (search_vector_db (fun _ => HttpOutcome.resp 500 []) 5).1 = [] ∧
    (search_vector_db (fun _ => HttpOutcome.resp 500 []) 5).2.length = max_retries :=
  (C1_retrieval_retry_policy (fun _ => HttpOutcome.resp 500 []) 5).2.2.2.2.2
    (fun i _ => by decide)

/-- Counterexample to C2 as stated: deduplication in search_with_batching
only checks names against the already-accumulated results, so duplicate names
inside one underlying response survive. With a retrieval double whose every
response repeats one name, the merged result of a batched request for 21
items (four batches, dedup between batches) still carries the name six times
from the first batch, and the direct pass-through for a total of 2 carries it
twice. -/
theorem C2_counterexample :
    ¬ ((search_with_batching (fun _ k => List.replicate k ⟨some "중복", "x"⟩)
        "추천" 21 6).map getName).Nodup ∧
    ¬ ((search_with_batching (fun _ k => List.replicate k ⟨some "중복", "x"⟩)
        "추천" 2 6).map getName).Nodup := by decide

lemma dedupNew_names_nodup (acc batch : List Item)
    (hb : (batch.map getName).Nodup) : ((dedupNew acc batch).map getName).Nodup :=
  ((List.filter_sublist batch).map getName).nodup hb

lemma dedupNew_names_disjoint (acc batch : List Item) :
    (acc.map getName).Disjoint ((dedupNew acc batch).map getName) := by
  intro x hxacc hxnew
  rcases List.mem_map.mp hxnew with ⟨r, hr, rfl⟩
  have hp := List.of_mem_filter hr
  rw [Bool.not_eq_true'] at hp
  have : getName r ∉ acc.map getName := by simpa using hp
  exact this hxacc

lemma batchLoop_names_nodup (fetch : String → Nat → List Item) (query : String)
    (total_count batch_size : Nat)
    (hf : ∀ q k, ((fetch q k).map getName).Nodup) :
    ∀ rem batch_num acc, (acc.map getName).Nodup →
      ((batchLoop fetch query total_count batch_size batch_num rem acc).map getName).Nodup := by
  intro rem
  induction rem with
  | zero => intro bn acc h; simpa [batchLoop] using h
  | succ n ih =>
    intro bn acc h
    have hnew : ((acc ++ dedupNew acc
        (fetch (batchQuery query bn) (min batch_size (total_count - acc.length)))).map
          getName).Nodup := by
      rw [List.map_append, List.nodup_append]
      exact ⟨h, dedupNew_names_nodup _ _ (hf _ _), dedupNew_names_disjoint _ _⟩
    simp only [batchLoop]
    split_ifs
    · exact hnew
    · exact hnew
    · exact ih (bn + 1) _ hnew

/-- C2 as amended: whenever every single underlying search_vector_db response
is free of duplicate item names, the list returned by search_with_batching
contains no two items with equal names, for every query, requested total and
batch size. (As stated the claim fails, since one response may itself repeat
a name and the dedup step only filters against previously accumulated items;
see the counterexample.) -/
theorem C2_no_duplicate_names (fetch : String → Nat → List Item) (query : String)
    (total_count batch_size : Nat)
    (hf : ∀ q k, ((fetch q k).map getName).Nodup) :
    ((search_with_batching fetch query total_count batch_size).map getName).Nodup := by
  unfold search_with_batching
  split
  · exact hf query total_count
  · have key := batchLoop_names_nodup fetch query total_count batch_size hf
      ((total_count + batch_size - 1) / batch_size) 0 [] (by simp)
    rw [List.map_take]
    exact (List.take_sublist _ _).nodup key

/-- Witness for C2 as amended: a duplicate-free retrieval double keeps the
batched result of a 25-item request duplicate-free. -/
theorem C2_no_duplicate_names_witness :
    ((search_with_batching (fun q _ => [⟨some q, ""⟩]) "추천" 25 6).map getName).Nodup :=
  C2_no_duplicate_names _ _ _ _ (fun q k => by simp [getName])

/-- C8: after the concurrent dispatch gathers all four category outcomes, a
category that ended in an exception is surfaced as an empty result for that
category only, a category that completed keeps its result list unchanged, and
each category's surfaced result is independent of the other categories'
outcomes — the merge is a total function of all four outcomes, so one
category's failure never aborts the turn. -/
theorem C8_partial_failure_isolation (hotel tour food event : TaskOutcome) :
    (∀ m, hotel = .exn m →
      (personalized_gather_results hotel tour food event).hotel_results = []) ∧
    (∀ rs, hotel = .ok rs →
      (personalized_gather_results hotel tour food event).hotel_results = rs) ∧
    (∀ m, tour = .exn m →
      (personalized_gather_results hotel tour food event).travel_results = []) ∧
    (∀ rs, tour = .ok rs →
      (personalized_gather_results hotel tour food event).travel_results = rs) ∧
    (∀ m, food = .exn m →
      (personalized_gather_results hotel tour food event).food_results = []) ∧
    (∀ rs, food = .ok rs →
      (personalized_gather_results hotel tour food event).food_results = rs) ∧
    (∀ m, event = .exn m →
      (personalized_gather_results hotel tour food event).event_results = []) ∧
    (∀ rs, event = .ok rs →
      (personalized_gather_results hotel tour food event).event_results = rs) ∧
    (∀ hotel2,
      (personalized_gather_results hotel2 tour food event).travel_results
        = (personalized_gather_results hotel tour food event).travel_results ∧
      (personalized_gather_results hotel2 tour food event).food_results
        = (personalized_gather_results hotel tour food event).food_results ∧
      (personalized_gather_results hotel2 tour food event).event_results
        = (personalized_gather_results hotel tour food event).event_results) :=
  ⟨fun m hm => by rw [hm]; rfl, fun rs hr => by rw [hr]; rfl,
   fun m hm => by rw [hm]; rfl, fun rs hr => by rw [hr]; rfl,
   fun m hm => by rw [hm]; rfl, fun rs hr => by rw [hr]; rfl,
   fun m hm => by rw [hm]; rfl, fun rs hr => by rw [hr]; rfl,
   fun hotel2 => ⟨rfl, rfl, rfl⟩⟩

/-- Witness for C8: with the hotel task raising and the other three
completing, only the hotel slot is emptied. -/
theorem C8_partial_failure_isolation_witness :
    (personalized_gather_results (.exn "ReadTimeout") (.ok [⟨some "성산일출봉", "t"⟩])
      (.ok []) (.ok [])).hotel_results = [] ∧
    (personalized_gather_results (.exn "ReadTimeout") (.ok [⟨some "성산일출봉", "t"⟩])
      (.ok []) (.ok [])).travel_results = [⟨some "성산일출봉", "t"⟩] :=
  ⟨(C8_partial_failure_isolation _ _ _ _).1 "ReadTimeout" rfl,
   (C8_partial_failure_isolation _ _ _ _).2.2.2.1 [⟨some "성산일출봉", "t"⟩] rfl⟩

/-- C10: the single-chain baseline's search_vector_db makes exactly one HTTP
request per call, with the global client's fixed timeouts (connect 10, read
120, write 10, pool 10 seconds) and no backoff sleep; any non-200 status or
raised transport error yields an empty list without raising, and a 200
response is truncated to top_k. -/
theorem C10_single_chain_single_request (outcome : HttpOutcome) (top_k : Nat) :
    (singleChain_search_vector_db outcome top_k).2.length = 1 ∧
    (∀ log ∈ (singleChain_search_vector_db outcome top_k).2,
      log.connectT = 10 ∧ log.readT = 120 ∧ log.writeT = 10 ∧ log.poolT = 10 ∧
      log.sleptAfter = none) ∧
    (outcomeOk outcome = false → (singleChain_search_vector_db outcome top_k).1 = []) ∧
    (∀ srcs, outcome = .resp 200 srcs →
      (singleChain_search_vector_db outcome top_k).1 = srcs.take top_k) := by
  cases outcome with
  | resp status srcs =>
    by_cases h : status = 200
    · subst h
      simp [singleChain_search_vector_db, outcomeOk]
    · simp [singleChain_search_vector_db, outcomeOk, h]
  | readTimeoutErr => simp [singleChain_search_vector_db, outcomeOk]
  | connectTimeoutErr => simp [singleChain_search_vector_db, outcomeOk]
  | otherError => simp [singleChain_search_vector_db, outcomeOk]

/-- Witness for C10: a 503 double yields the empty list from its single
request. -/
theorem C10_single_chain_single_request_witness :
    (singleChain_search_vector_db (.resp 503 []) 5).1 = [] :=
  (C10_single_chain_single_request (.resp 503 []) 5).2.2.1 (by decide)

end Orda
